import Mathlib

/-!
Shallow embedding of the slab-allocator core found in
`src/ostd/heap/slab.rs`, `src/ostd/heap/mod.rs`, `src/ostd/heap/early_heap.rs`
and `src/kernel/slab_v3.rs`.

Modelling conventions:
* the `AtomicU16` in-use counter is a `Nat` reduced modulo `2 ^ 16 = 65536`
  at every operation (`fetch_add` / `fetch_sub` wrap);
* the intrusive, pointer-linked free list is a `List Nat` of slot
  identifiers, the list head being the slab's `free_list` head pointer;
* a panicking `assert!` is an `Option` result (`none` = panic); the value of
  a `debug_assert!` condition is returned as a `Bool` alongside the state;
* per-CPU storage (`CpuLocal`) is a total function from CPU index.
-/

/-- Page size in bytes. The source uses `PAGE_SIZE` without defining it in
the given files; 4096 is the conventional value it assumes. -/
def PAGE_SIZE : Nat := 4096

/-- Smallest supported slab slot size, `MIN_SLAB_SLOT_SIZE` (the source
asserts `16 == slab::MIN_SLAB_SLOT_SIZE`). -/
def MIN_SLAB_SLOT_SIZE : Nat := 16

/-- Largest supported slab slot size. The constant is referenced but not
defined in the sources; the largest `SlabAllocators` field `size2048` and the
dispatcher match arms fix it at 2048. -/
def MAX_SLAB_SLOT_SIZE : Nat := 2048

/-- State of one `Slab` / its `SlabMeta`: the intrusive free list (slot
identifiers, head first) and the `nr_inuse_slots` counter. -/
structure SlabMeta where
  free_list : List Nat
  nr_inuse_slots : Nat
  deriving DecidableEq

/-- The `nr_total_slots` accessor: `PAGE_SIZE / SLOT_SIZE`. -/
def nr_total_slots (slot_size : Nat) : Nat := PAGE_SIZE / slot_size

/-- The `has_unused_slots` accessor: free-list head pointer is non-null. -/
def has_unused_slots (m : SlabMeta) : Bool := decide (m.free_list ≠ [])

/-- The invariant claimed for slabs: in-use slots plus free-list length
equals the total slot count. -/
def slab_invariant (m : SlabMeta) (total : Nat) : Prop :=
  m.nr_inuse_slots + m.free_list.length = total

/-- A freshly constructed slab. `Slab::alloc` is a `todo!()` whose message
documents the steps (partition the page into slots, link all of them into a
list); modelled from the spec and that message: all `total` slots are on the
free list and none is in use. -/
def fresh_slab (total : Nat) : SlabMeta :=
  SlabMeta.mk (List.range total) 0

/-- `Slab::new_slot`: pop the free-list head (`none` if the head pointer is
null), store the next link as the new head, and `fetch_add(1)` the in-use
counter (wrapping as `AtomicU16` does). -/
def new_slot (m : SlabMeta) : Option (Nat × SlabMeta) :=
  match m.free_list with
  | [] => none
  | head :: rest => some (head, SlabMeta.mk rest ((m.nr_inuse_slots + 1) % 65536))

/-- The `Drop` impl of `FreeSlabSlot`: `fetch_sub(1)` on the parent slab's
`nr_inuse_slots` (wrapping as `AtomicU16` does). -/
def free_slab_slot_drop (m : SlabMeta) : SlabMeta :=
  SlabMeta.mk m.free_list ((m.nr_inuse_slots + 65535) % 65536)

/-- The body of `Slab::recycle_slot` after its identity assertion, modelled
exactly as written in the source: it loads the old head, writes
`new_head.next = old_head_ptr` into the slot's own storage but never stores
the new head pointer back into `slab_meta.free_list` (so the free list is
unchanged), and it runs `drop(free_slot)` (which fires the `Drop` impl's
`fetch_sub`) before its own `fetch_sub(1, Relaxed)`. The returned `Bool` is
the value of the `debug_assert!(old_count >= 1)` condition, where
`old_count` is what the second `fetch_sub` returned. -/
def recycle_slot_meta (m : SlabMeta) (_slot : Nat) : SlabMeta × Bool :=
  let m1 := free_slab_slot_drop m
  let old_count := m1.nr_inuse_slots
  (SlabMeta.mk m1.free_list ((old_count + 65535) % 65536), decide (1 ≤ old_count))

/-- `Slab::recycle_slot`: first asserts that the slot's recorded parent-slab
metadata pointer equals this slab's (`none` models that panic), then runs
`recycle_slot_meta`. Slab identities are modelled as numbers. -/
def recycle_slot (m : SlabMeta) (slot : Nat) (slot_slab_id self_slab_id : Nat) :
    Option (SlabMeta × Bool) :=
  if slot_slab_id = self_slab_id then some (recycle_slot_meta m slot)
  else none

/-- Runs `new_slot` a given number of times, keeping only the slab state and
failing as soon as one call returns `none`. -/
def new_slot_n (m : SlabMeta) : Nat → Option SlabMeta
  | 0 => some m
  | k + 1 =>
    match new_slot m with
    | none => none
    | some (_, m1) => new_slot_n m1 k

/-- Model of `usize::next_power_of_two` (called by `determine_slot_size`):
the smallest power of two greater than or equal to the argument, computed
with structural fuel so that the kernel can evaluate it. -/
def next_power_of_two_fuel (fuel : Nat) (n : Nat) : Nat :=
  match fuel with
  | 0 => 1
  | fuel + 1 => if n ≤ 1 then 1 else 2 * next_power_of_two_fuel fuel ((n + 1) / 2)

/-- The `usize` is 64 bits wide, so 64 halvings always reach 1. -/
def next_power_of_two (n : Nat) : Nat := next_power_of_two_fuel 64 n

/-- `determine_slot_size` from `src/ostd/heap/mod.rs`: sizes at or below the
minimum class map to the minimum class, anything else to its next power of
two. (The function's `debug_assert!` restricts callers to
`obj_size <= MAX_SLAB_SLOT_SIZE`.) -/
def determine_slot_size (obj_size : Nat) : Nat :=
  if obj_size ≤ MIN_SLAB_SLOT_SIZE then MIN_SLAB_SLOT_SIZE
  else next_power_of_two obj_size

/-- The fixed ascending set of supported size classes, from the fields of
`SlabAllocators` (`size16` ... `size2048`). -/
def supported_classes : List Nat := [16, 32, 64, 128, 256, 512, 1024, 2048]

/-- Spec-side definition of `classify`, written from the spec's words: the
smallest supported class that is at least `max n 16` (`none` if no class is
large enough). Used to compare the spec against `determine_slot_size`. -/
def spec_classify (n : Nat) : Option Nat :=
  (supported_classes.filter (fun c => decide (max n 16 ≤ c))).head?

/-- State of the `HeapAlloc` dispatcher singleton: the `have_injected_slabs`
atomic flag and the `Once<SlabAllocators>` cell. A concrete strategy set is
modelled as a number identifying it. -/
structure HeapAllocState where
  have_injected_slabs : Bool
  slab_caches : Option Nat
  deriving DecidableEq

/-- `HeapAlloc::new`: flag cleared, `Once` cell empty. -/
def heap_alloc_new : HeapAllocState :=
  HeapAllocState.mk false none

/-- `Once::call_once`: installs the value on the first call and discards the
argument on every later call. -/
def once_call_once (cell : Option Nat) (value : Nat) : Option Nat :=
  match cell with
  | none => some value
  | some v => some v

/-- `HeapAlloc::inject_slab_allocators`: `call_once` the strategy set into
the cell, then `swap(true, AcqRel)` the flag and panic if the old value was
already `true`. Returns the state left behind together with whether the
double-injection panic fired. -/
def inject_slab_allocators (s : HeapAllocState) (slab_allocators : Nat) :
    HeapAllocState × Bool :=
  let s1 := HeapAllocState.mk s.have_injected_slabs
    (once_call_once s.slab_caches slab_allocators)
  let old := s1.have_injected_slabs
  (HeapAllocState.mk true s1.slab_caches, old)

/-- Where `HeapAlloc::alloc` sends a request. -/
inductive AllocRoute where
  | page_allocator
  | align_assert_failed
  | early_heap (slot_size : Nat)
  | slab_cache (slot_size : Nat)
  deriving DecidableEq

/-- The routing logic of `HeapAlloc::alloc`: sizes at or above
`MAX_SLAB_SLOT` (the source's `layout.size >= MAX_SLAB_SLOT` guard) go to the
page allocator; otherwise the slot size is computed, the
`slot_align % obj_align == 0` assertion is checked, and the request goes to
the early heap or the injected slab caches depending on the flag. -/
def alloc_route (s : HeapAllocState) (size align : Nat) : AllocRoute :=
  if MAX_SLAB_SLOT_SIZE ≤ size then AllocRoute.page_allocator
  else if determine_slot_size size % align = 0 then
    (if s.have_injected_slabs then AllocRoute.slab_cache (determine_slot_size size)
     else AllocRoute.early_heap (determine_slot_size size))
  else AllocRoute.align_assert_failed

/-- Where `HeapAlloc::dealloc` sends a pointer. -/
inductive DeallocRoute where
  | page_allocator
  | early_heap_free (slot_size : Nat)
  | leak_in_early_heap
  | slab_recycle (slot_size : Nat)
  deriving DecidableEq

/-- Number of pages of the static early-heap region (source constant
`NR_EARLY_HEAP_PAEGS`, name kept as written). -/
def NR_EARLY_HEAP_PAEGS : Nat := 256

/-- `early_heap::contains_ptr`: range check of the address against the
static region `[heap_page_start, heap_page_start + NR_EARLY_HEAP_PAEGS * PAGE_SIZE)`. -/
def contains_ptr (heap_page_start ptr_addr : Nat) : Bool :=
  decide (heap_page_start ≤ ptr_addr) &&
    decide (ptr_addr < heap_page_start + NR_EARLY_HEAP_PAEGS * PAGE_SIZE)

/-- The routing logic of `HeapAlloc::dealloc`, as written in the source:
oversized goes to the page allocator; in the bootstrapping state everything
else is freed through the early heap (no range check); in the operational
state a pointer inside the early-heap region makes the function return
without freeing (the source comment: it is ok to simply leak memory in the
early heap), and only pointers outside the region reach the slab recycle
callback. -/
def dealloc_route (s : HeapAllocState) (size : Nat) (in_early_heap : Bool) :
    DeallocRoute :=
  if MAX_SLAB_SLOT_SIZE ≤ size then DeallocRoute.page_allocator
  else if s.have_injected_slabs then
    (if in_early_heap then DeallocRoute.leak_in_early_heap
     else DeallocRoute.slab_recycle (determine_slot_size size))
  else DeallocRoute.early_heap_free (determine_slot_size size)

/-- Pointwise update of a per-CPU map. -/
def upd {α : Type} (f : Nat → α) (i : Nat) (v : α) : Nat → α :=
  fun j => if j = i then v else f j

/-- State of a `LocklessSlabCache` (slab_v3.rs) for one size class: the
per-CPU locked slab, the per-CPU unsynchronized local free list, and a
per-CPU count of per-CPU-lock acquisitions (the spec's observable
acquisition counter). -/
structure LocklessCacheState where
  local_slabs : Nat → SlabMeta
  local_free_lists : Nat → List Nat
  lock_acquisitions : Nat → Nat

/-- Spec-side definition of returning one slot, written from the spec's
words (push the slot onto the head of the free list, decrement the in-use
count once). It does not model any source function: the source's
`Slab::recycle_slot` is modelled by `recycle_slot_meta` and differs from
this definition (no relink of the slot, two decrements). It exists purely as
a comparison point, to show that dropping a slot handle matches neither the
source's recycle nor this intended return. -/
def slab_return_slot (m : SlabMeta) (slot : Nat) : SlabMeta :=
  SlabMeta.mk (slot :: m.free_list) ((m.nr_inuse_slots + 65535) % 65536)

/-- `LocklessSlabCache::recycle_slot` (slab_v3.rs). Two pieces are modelled
from the spec because the source cannot be read literally there: the routing
condition is written `if owner_cpu = pin_cpu_guard.current_cpu()` - an
assignment, which does not type-check as a condition and which the spec
flags as a defect whose intent is the equality test - and the fast path's
`FreeSlabSlotList::push` is an unfinished `todo!()` placeholder, modelled as
pushing onto the head of the local list. The slow path is modelled from the
source: it calls `SinglePageSlabCache::recycle_slot` (slab_v1.rs), which
acquires the owner CPU's lock (counted here) and runs `Slab::recycle_slot`
on the owner CPU's slab - the faithful `recycle_slot_meta`, whose identity
assertion passes because the slot's recorded parent slab is exactly the
owner CPU's slab (only the slab state is kept; the `debug_assert` flag of
`recycle_slot_meta` is dropped). -/
def lockless_recycle_slot (st : LocklessCacheState) (slot : Nat)
    (owner_cpu current_cpu : Nat) : LocklessCacheState :=
  if owner_cpu = current_cpu then
    LocklessCacheState.mk st.local_slabs
      (upd st.local_free_lists current_cpu (slot :: st.local_free_lists current_cpu))
      st.lock_acquisitions
  else
    LocklessCacheState.mk
      (upd st.local_slabs owner_cpu (recycle_slot_meta (st.local_slabs owner_cpu) slot).1)
      st.local_free_lists
      (upd st.lock_acquisitions owner_cpu (st.lock_acquisitions owner_cpu + 1))

/-! Helper lemmas about repeated `new_slot`. -/

/-- As long as the free list is at least as long as the number of requested
slots, every `new_slot` in the sequence succeeds. -/
theorem new_slot_n_isSome : ∀ (k : Nat) (fl : List Nat) (c : Nat),
    k ≤ fl.length → (new_slot_n (SlabMeta.mk fl c) k).isSome = true := by
  intro k
  induction k with
  | zero => intro fl c _; rfl
  | succ k ih =>
    intro fl c hk
    cases fl with
    | nil => simp at hk
    | cons a t =>
      have hstep : new_slot_n (SlabMeta.mk (a :: t) c) (k + 1)
          = new_slot_n (SlabMeta.mk t ((c + 1) % 65536)) k := rfl
      rw [hstep]
      apply ih
      simp at hk
      omega

/-- Requesting more slots than the free list holds makes the sequence fail. -/
theorem new_slot_n_none : ∀ (k : Nat) (fl : List Nat) (c : Nat),
    fl.length < k → new_slot_n (SlabMeta.mk fl c) k = none := by
  intro k
  induction k with
  | zero => intro fl c hk; omega
  | succ k ih =>
    intro fl c hk
    cases fl with
    | nil => rfl
    | cons a t =>
      have hstep : new_slot_n (SlabMeta.mk (a :: t) c) (k + 1)
          = new_slot_n (SlabMeta.mk t ((c + 1) % 65536)) k := rfl
      rw [hstep]
      apply ih
      simp at hk
      omega

instance (m : SlabMeta) (total : Nat) : Decidable (slab_invariant m total) :=
  inferInstanceAs (Decidable (m.nr_inuse_slots + m.free_list.length = total))

/-- C1: the claimed invariant `used + free-list length = total slots` is
broken by the code. On a fresh slab of slot size 2048 (total
`PAGE_SIZE / 2048 = 2` slots) the invariant holds, and it still holds after
one `new_slot`; but recycling that slot back through `recycle_slot`
decrements the in-use counter twice (the `drop(free_slot)` inside the
function fires the `Drop` impl's `fetch_sub` in addition to the function's
own `fetch_sub`) and never relinks the slot into the free list, so the
counter wraps to 65535, the function's own `debug_assert!(old_count >= 1)`
condition is false, and `used + free-list length = 65535 + 1 ≠ 2`. -/
theorem c1_invariant_broken_by_recycle :
    nr_total_slots 2048 = 2 ∧
    slab_invariant (fresh_slab (nr_total_slots 2048)) (nr_total_slots 2048) ∧
    new_slot (fresh_slab (nr_total_slots 2048)) = some (0, SlabMeta.mk [1] 1) ∧
    slab_invariant (SlabMeta.mk [1] 1) (nr_total_slots 2048) ∧
    recycle_slot (SlabMeta.mk [1] 1) 0 0 0 = some (SlabMeta.mk [1] 65535, false) ∧
    ¬ slab_invariant (SlabMeta.mk [1] 65535) (nr_total_slots 2048) := by
  decide

/-- C4: evaluation of `recycle_slot` at a slab with two slots in use,
receiving back the slot with identifier 0 whose recorded slab identity
matches. The identity-mismatch panic does fire on a foreign slot (last
conjunct), as the claim says; but on the matching slot the in-use counter
drops from 2 to 0 - two decrements, not the claimed exactly one - and the
free list still does not contain the returned slot, because the store of the
new head is missing from the source. -/
theorem c4_recycle_slot_double_decrement_no_push :
    recycle_slot (SlabMeta.mk [2] 2) 0 0 0 = some (SlabMeta.mk [2] 0, true) ∧
    (SlabMeta.mk [2] 0).nr_inuse_slots ≠ (SlabMeta.mk [2] 2).nr_inuse_slots - 1 ∧
    (SlabMeta.mk [2] 0).free_list ≠ 0 :: (SlabMeta.mk [2] 2).free_list ∧
    recycle_slot (SlabMeta.mk [2] 2) 0 1 0 = none := by
  decide

/-- C5: a fresh slab with `total` slots satisfies any run of at most `total`
sequential `new_slot` calls, the `(total+1)`-th call (before any return)
fails, and each successful call pops the free-list head and increments the
in-use count by one (stated below the wrap limit of the `AtomicU16`). -/
theorem c5_fresh_slab_serves_exactly_total : ∀ total k : Nat,
    (k ≤ total → (new_slot_n (fresh_slab total) k).isSome = true) ∧
    new_slot_n (fresh_slab total) (total + 1) = none ∧
    (∀ (m : SlabMeta) (a : Nat) (t : List Nat),
      m.free_list = a :: t → m.nr_inuse_slots < 65535 →
      new_slot m = some (a, SlabMeta.mk t (m.nr_inuse_slots + 1))) := by
  intro total k
  refine ⟨?_, ?_, ?_⟩
  · intro hk
    have h := new_slot_n_isSome k (List.range total) 0 (by simpa using hk)
    simpa [fresh_slab] using h
  · exact new_slot_n_none (total + 1) (List.range total) 0 (by simp)
  · intro m a t hm hc
    obtain ⟨fl, c⟩ := m
    have hm2 : fl = a :: t := hm
    subst hm2
    have hc2 : c < 65535 := hc
    show some (a, SlabMeta.mk t ((c + 1) % 65536)) = some (a, SlabMeta.mk t (c + 1))
    rw [Nat.mod_eq_of_lt (by omega)]

/-- Witness for C5 at the slot-size-2048 slab (`total = 2`): two sequential
`new_slot` calls succeed and the third returns none. -/
theorem c5_fresh_slab_serves_exactly_total_witness :
    (new_slot_n (fresh_slab 2) 2).isSome = true ∧
    new_slot_n (fresh_slab 2) (2 + 1) = none :=
  ⟨(c5_fresh_slab_serves_exactly_total 2 2).1 (by decide),
   (c5_fresh_slab_serves_exactly_total 2 2).2.1⟩

/-- C9 counterexample: dropping a `FreeSlabSlot` does not have the same
effect on the owning slab's state as returning an unused free slot. At the
slab state with free list `[1]` and two slots in use, returning slot 0
through the source's `recycle_slot` yields in-use count 0, while the `Drop`
impl yields in-use count 1 - and even against the intended `return_slot`
(push plus single decrement) the drop differs, since it never relinks the
slot. -/
theorem c9_drop_effect_differs_from_return :
    recycle_slot (SlabMeta.mk [1] 2) 0 0 0 ≠
      some (free_slab_slot_drop (SlabMeta.mk [1] 2), true) ∧
    free_slab_slot_drop (SlabMeta.mk [1] 2) ≠
      slab_return_slot (SlabMeta.mk [1] 2) 0 := by
  decide

/-- C9 amended: dropping a `FreeSlabSlot` decrements the owning slab's
in-use counter by exactly one (below the `AtomicU16` wrap limit) and leaves
the free list untouched; it keeps the counter balanced on paths that take a
slot and abandon it, but it is not the same state change as returning the
slot to the free list. -/
theorem c9_drop_decrements_counter_once : ∀ m : SlabMeta,
    (free_slab_slot_drop m).free_list = m.free_list ∧
    (1 ≤ m.nr_inuse_slots → m.nr_inuse_slots < 65536 →
      (free_slab_slot_drop m).nr_inuse_slots = m.nr_inuse_slots - 1) := by
  intro m
  constructor
  · simp [free_slab_slot_drop]
  · intro h1 h2
    simp only [free_slab_slot_drop]
    omega

/-- Witness for C9's amended statement at a slab with three slots in use. -/
theorem c9_drop_decrements_counter_once_witness :
    (free_slab_slot_drop (SlabMeta.mk [5] 3)).nr_inuse_slots =
      (SlabMeta.mk [5] 3).nr_inuse_slots - 1 :=
  (c9_drop_decrements_counter_once (SlabMeta.mk [5] 3)).2 (by decide) (by decide)

set_option maxRecDepth 2000 in
/-- Exhaustive check of the classify agreement on inputs 0 to 511. -/
theorem spec_classify_chunk0 : ∀ n, n < 512 →
    spec_classify n = some (determine_slot_size n) := by
  decide

set_option maxRecDepth 2000 in
/-- Exhaustive check of the classify agreement on inputs 512 to 1023. -/
theorem spec_classify_chunk1 : ∀ n, n < 512 →
    spec_classify (n + 512) = some (determine_slot_size (n + 512)) := by
  decide

set_option maxRecDepth 2000 in
/-- Exhaustive check of the classify agreement on inputs 1024 to 1535. -/
theorem spec_classify_chunk2 : ∀ n, n < 512 →
    spec_classify (n + 1024) = some (determine_slot_size (n + 1024)) := by
  decide

set_option maxRecDepth 2000 in
/-- Exhaustive check of the classify agreement on inputs 1536 to 2047. -/
theorem spec_classify_chunk3 : ∀ n, n < 512 →
    spec_classify (n + 1536) = some (determine_slot_size (n + 1536)) := by
  decide

/-- C2: on the whole supported input range (`obj_size ≤ 2048`, enforced by
the function's `debug_assert!`), `determine_slot_size` computes exactly the
spec's `classify`: the smallest supported power-of-two class at least
`max n 16`; in particular `classify 1 = 16`, `classify 17 = 32` and
`classify 2048 = 2048`. -/
theorem c2_determine_slot_size_is_smallest_class :
    (∀ n, n < 2049 → spec_classify n = some (determine_slot_size n)) ∧
    determine_slot_size 1 = 16 ∧
    determine_slot_size 17 = 32 ∧
    determine_slot_size 2048 = 2048 := by
  refine ⟨?_, by decide, by decide, by decide⟩
  intro n hn
  by_cases h0 : n < 512
  · exact spec_classify_chunk0 n h0
  by_cases h1 : n < 1024
  · have h := spec_classify_chunk1 (n - 512) (by omega)
    rwa [show n - 512 + 512 = n by omega] at h
  by_cases h2 : n < 1536
  · have h := spec_classify_chunk2 (n - 1024) (by omega)
    rwa [show n - 1024 + 1024 = n by omega] at h
  by_cases h3 : n < 2048
  · have h := spec_classify_chunk3 (n - 1536) (by omega)
    rwa [show n - 1536 + 1536 = n by omega] at h
  · have hn2048 : n = 2048 := by omega
    subst hn2048
    decide

/-- Witness for C2 at the boundary input 17. -/
theorem c2_determine_slot_size_is_smallest_class_witness :
    spec_classify 17 = some (determine_slot_size 17) :=
  c2_determine_slot_size_is_smallest_class.1 17 (by decide)

/-- C3 counterexample: it is not true that before any injection every
allocate/deallocate call is served by the early heap. A pre-injection
allocate (and deallocate) of size 4096 goes to the external page allocator:
the dispatcher's oversized guard runs before the backend is consulted. -/
theorem c3_pre_injection_oversized_bypasses_early_heap :
    alloc_route heap_alloc_new 4096 8 = AllocRoute.page_allocator ∧
    dealloc_route heap_alloc_new 4096 false = DeallocRoute.page_allocator := by
  decide

/-- C3 amended: the injection entry point succeeds on its first call
(installing the injected set) and panics on any subsequent call; before any
injection, every allocate/deallocate call within the slot-size range
(`size < 2048`, the dispatcher's page-delegation guard) whose alignment the
class satisfies is served by the early heap - oversized calls go to the page
allocator in either state; after injection, new allocations in that range
are served by the injected strategies. -/
theorem c3_dispatcher_injection_and_routing : ∀ (a b size align : Nat),
    size < MAX_SLAB_SLOT_SIZE →
    determine_slot_size size % align = 0 →
    alloc_route heap_alloc_new size align
      = AllocRoute.early_heap (determine_slot_size size) ∧
    dealloc_route heap_alloc_new size true
      = DeallocRoute.early_heap_free (determine_slot_size size) ∧
    dealloc_route heap_alloc_new size false
      = DeallocRoute.early_heap_free (determine_slot_size size) ∧
    (inject_slab_allocators heap_alloc_new a).2 = false ∧
    (inject_slab_allocators heap_alloc_new a).1.slab_caches = some a ∧
    (inject_slab_allocators (inject_slab_allocators heap_alloc_new a).1 b).2 = true ∧
    alloc_route (inject_slab_allocators heap_alloc_new a).1 size align
      = AllocRoute.slab_cache (determine_slot_size size) := by
  intro a b size align hsize halign
  have hnotle : ¬ MAX_SLAB_SLOT_SIZE ≤ size := Nat.not_le.mpr hsize
  refine ⟨?_, ?_, ?_, rfl, rfl, rfl, ?_⟩
  · simp [alloc_route, heap_alloc_new, hnotle, halign]
  · simp [dealloc_route, heap_alloc_new, hnotle]
  · simp [dealloc_route, heap_alloc_new, hnotle]
  · simp [alloc_route, inject_slab_allocators, once_call_once, heap_alloc_new,
      hnotle, halign]

/-- Witness for C3's amended statement: after injecting strategy set 7, an
allocation of size 32 with alignment 8 is served by the injected slab cache
of class 32. -/
theorem c3_dispatcher_injection_and_routing_witness :
    alloc_route (inject_slab_allocators heap_alloc_new 7).1 32 8
      = AllocRoute.slab_cache (determine_slot_size 32) :=
  (c3_dispatcher_injection_and_routing 7 9 32 8 (by decide) (by decide)).2.2.2.2.2.2

/-- The dispatcher state after one injection, used as a concrete
operational-state input. -/
def injected_example_state : HeapAllocState :=
  (inject_slab_allocators heap_alloc_new 0).1

/-- C6 counterexample: in the operational state, a deallocation whose
pointer lies inside the early-heap region (here: region base 0, pointer 64,
size 16) is not freed via the early heap - `dealloc` returns without
freeing, deliberately leaking the memory. -/
theorem c6_operational_early_pointer_leaked :
    dealloc_route injected_example_state 16 (contains_ptr 0 64)
      ≠ DeallocRoute.early_heap_free (determine_slot_size 16) ∧
    dealloc_route injected_example_state 16 (contains_ptr 0 64)
      = DeallocRoute.leak_in_early_heap := by
  decide

/-- C6 amended: a deallocation whose pointer lies in the early-heap region
is never handed to the injected slab caches, in either dispatcher state: in
the bootstrapping state it is freed via the early heap, and in the
operational state the dispatcher returns without freeing it (the source
deliberately leaks early-heap memory after the transition). -/
theorem c6_early_region_dealloc_routing :
    ∀ (s : HeapAllocState) (size heap_page_start ptr_addr : Nat),
    size < MAX_SLAB_SLOT_SIZE →
    contains_ptr heap_page_start ptr_addr = true →
    (s.have_injected_slabs = false →
      dealloc_route s size (contains_ptr heap_page_start ptr_addr)
        = DeallocRoute.early_heap_free (determine_slot_size size)) ∧
    (s.have_injected_slabs = true →
      dealloc_route s size (contains_ptr heap_page_start ptr_addr)
        = DeallocRoute.leak_in_early_heap) ∧
    (∀ slot_size, dealloc_route s size (contains_ptr heap_page_start ptr_addr)
        ≠ DeallocRoute.slab_recycle slot_size) := by
  intro s size heap_page_start ptr_addr hsize hin
  have hnotle : ¬ MAX_SLAB_SLOT_SIZE ≤ size := Nat.not_le.mpr hsize
  rw [hin]
  refine ⟨?_, ?_, ?_⟩
  · intro hflag
    simp [dealloc_route, hnotle, hflag]
  · intro hflag
    simp [dealloc_route, hnotle, hflag]
  · intro slot_size
    cases hflag : s.have_injected_slabs with
    | false => simp [dealloc_route, hnotle, hflag]
    | true => simp [dealloc_route, hnotle, hflag]

/-- Witness for C6's amended statement in the operational state. -/
theorem c6_early_region_dealloc_routing_witness :
    dealloc_route injected_example_state 16 (contains_ptr 0 64)
      = DeallocRoute.leak_in_early_heap :=
  (c6_early_region_dealloc_routing injected_example_state 16 0 64
    (by decide) (by decide)).2.1 (by decide)

/-- C8 counterexample: a request of size exactly 2048 is not served by the
slot-based path - the source's guard is `layout.size >= MAX_SLAB_SLOT`, so
size 2048 is delegated to the external page allocator, in either dispatcher
state. -/
theorem c8_size_2048_delegated_to_page_allocator :
    alloc_route heap_alloc_new 2048 1 = AllocRoute.page_allocator ∧
    alloc_route injected_example_state 2048 1 = AllocRoute.page_allocator ∧
    dealloc_route injected_example_state 2048 false
      = DeallocRoute.page_allocator := by
  decide

/-- C8 amended: an allocation is delegated to the external page allocator
exactly when its size is at least 2048 (`size >= MAX_SLAB_SLOT`); the 2048
size class still serves the slot path for requests of sizes 1025 to 2047,
which classify to 2048. -/
theorem c8_page_allocator_delegation_threshold :
    ∀ (s : HeapAllocState) (size align : Nat),
    (alloc_route s size align = AllocRoute.page_allocator ↔
      MAX_SLAB_SLOT_SIZE ≤ size) ∧
    (1025 ≤ size → size ≤ 2047 → determine_slot_size size = 2048) := by
  intro s size align
  constructor
  · constructor
    · intro hroute
      by_contra hlt
      revert hroute
      simp only [alloc_route, if_neg hlt]
      split
      · split <;> simp
      · simp
    · intro hge
      simp [alloc_route, hge]
  · intro h1 h2
    by_cases h0 : size < 1536
    · have h := spec_classify_chunk2 (size - 1024) (by omega)
      rw [show size - 1024 + 1024 = size by omega] at h
      revert h
      have hmax : max size 16 = size := by omega
      simp [spec_classify, supported_classes, hmax]
      intro hc
      omega
    · have h := spec_classify_chunk3 (size - 1536) (by omega)
      rw [show size - 1536 + 1536 = size by omega] at h
      revert h
      have hmax : max size 16 = size := by omega
      simp [spec_classify, supported_classes, hmax]
      intro hc
      omega

/-- Witness for C8's amended statement: size 1500 classifies to the 2048
class (slot path), size 2048 is delegated. -/
theorem c8_page_allocator_delegation_threshold_witness :
    determine_slot_size 1500 = 2048 ∧
    alloc_route heap_alloc_new 2048 1 = AllocRoute.page_allocator :=
  ⟨(c8_page_allocator_delegation_threshold heap_alloc_new 1500 1).2
      (by decide) (by decide),
   (c8_page_allocator_delegation_threshold heap_alloc_new 2048 1).1.mpr
      (by decide)⟩

/-- C10: injecting a second, different strategy set leaves the set installed
by the first call in place. The second call's `call_once` discards its
argument before the panic fires, so the observable strategy state (the whole
dispatcher state, in fact) is unchanged by the failing call and never holds
the second argument. -/
theorem c10_failed_second_inject_keeps_first_set : ∀ a b : Nat, a ≠ b →
    (inject_slab_allocators (inject_slab_allocators heap_alloc_new a).1 b).2
      = true ∧
    (inject_slab_allocators (inject_slab_allocators heap_alloc_new a).1 b).1
      = (inject_slab_allocators heap_alloc_new a).1 ∧
    (inject_slab_allocators (inject_slab_allocators heap_alloc_new a).1 b).1.slab_caches
      = some a ∧
    (inject_slab_allocators (inject_slab_allocators heap_alloc_new a).1 b).1.slab_caches
      ≠ some b := by
  intro a b hab
  refine ⟨rfl, rfl, rfl, ?_⟩
  show some a ≠ some b
  intro h
  exact hab (Option.some.inj h)

/-- Witness for C10 with strategy sets 0 and 1. -/
theorem c10_failed_second_inject_keeps_first_set_witness :
    (inject_slab_allocators (inject_slab_allocators heap_alloc_new 0).1 1).1.slab_caches
      = some 0 :=
  (c10_failed_second_inject_keeps_first_set 0 1 (by decide)).2.2.1

/-- C7: faithful evaluation of `LocklessSlabCache::recycle_slot` (with the
routing condition repaired to the equality test the spec says the source's
assignment intends). The claim's fast path holds: when the freeing CPU is
the owner, the slot is pushed onto the current CPU's local unsynchronized
free list, every per-CPU slab is untouched and no lock is acquired. On the
cross-CPU path the slot is indeed forwarded to the owner CPU's locked slab -
exactly the owner CPU's lock is acquired once, and the freeing CPU's slab
and all local free lists are untouched - but, against the claim, the
forwarded slot does NOT become reachable from the owner CPU's slab: the slow
path ends in `Slab::recycle_slot`, which never stores the new free-list head
(the owner slab's free list is unchanged) and decrements that slab's in-use
counter twice (by `65534 + ...  mod 65536`, i.e. minus two with `AtomicU16`
wrap). -/
theorem c7_lockless_recycle_faithful :
    ∀ (st : LocklessCacheState) (slot owner_cpu current_cpu : Nat),
    (owner_cpu = current_cpu →
      (lockless_recycle_slot st slot owner_cpu current_cpu).local_free_lists current_cpu
        = slot :: st.local_free_lists current_cpu ∧
      (lockless_recycle_slot st slot owner_cpu current_cpu).local_slabs
        = st.local_slabs ∧
      (lockless_recycle_slot st slot owner_cpu current_cpu).lock_acquisitions
        = st.lock_acquisitions) ∧
    (owner_cpu ≠ current_cpu →
      (lockless_recycle_slot st slot owner_cpu current_cpu).lock_acquisitions owner_cpu
        = st.lock_acquisitions owner_cpu + 1 ∧
      (lockless_recycle_slot st slot owner_cpu current_cpu).lock_acquisitions current_cpu
        = st.lock_acquisitions current_cpu ∧
      (lockless_recycle_slot st slot owner_cpu current_cpu).local_free_lists
        = st.local_free_lists ∧
      (lockless_recycle_slot st slot owner_cpu current_cpu).local_slabs current_cpu
        = st.local_slabs current_cpu ∧
      ((lockless_recycle_slot st slot owner_cpu current_cpu).local_slabs owner_cpu).free_list
        = (st.local_slabs owner_cpu).free_list ∧
      ((lockless_recycle_slot st slot owner_cpu current_cpu).local_slabs owner_cpu).nr_inuse_slots
        = ((st.local_slabs owner_cpu).nr_inuse_slots + 65534) % 65536) := by
  intro st slot owner_cpu current_cpu
  constructor
  · intro h
    subst h
    refine ⟨?_, ?_, ?_⟩ <;> simp [lockless_recycle_slot, upd]
  · intro h
    have h2 : ¬ current_cpu = owner_cpu := fun hr => h hr.symm
    refine ⟨?_, ?_, ?_, ?_, ?_, ?_⟩
    · simp [lockless_recycle_slot, upd, h, h2]
    · simp [lockless_recycle_slot, upd, h, h2]
    · simp [lockless_recycle_slot, upd, h, h2]
    · simp [lockless_recycle_slot, upd, h, h2]
    · simp [lockless_recycle_slot, recycle_slot_meta, free_slab_slot_drop, upd, h, h2]
    · simp [lockless_recycle_slot, recycle_slot_meta, free_slab_slot_drop, upd, h, h2]
      omega

/-- A concrete two-CPU lockless-cache state. -/
def example_cache_state : LocklessCacheState :=
  LocklessCacheState.mk (fun _ => SlabMeta.mk [9] 1) (fun _ => [3]) (fun _ => 0)

/-- Witness for C7: a same-CPU recycle (CPU 0) pushes onto CPU 0's local
free list with no lock acquisition, while a cross-CPU recycle (owner CPU 0,
freeing CPU 1) acquires CPU 0's lock yet leaves CPU 0's slab free list
unchanged - the forwarded slot 7 is lost, not reachable. -/
theorem c7_lockless_recycle_faithful_witness :
    (lockless_recycle_slot example_cache_state 5 0 0).local_free_lists 0
      = 5 :: example_cache_state.local_free_lists 0 ∧
    (lockless_recycle_slot example_cache_state 5 0 0).lock_acquisitions
      = example_cache_state.lock_acquisitions ∧
    (lockless_recycle_slot example_cache_state 7 0 1).lock_acquisitions 0
      = example_cache_state.lock_acquisitions 0 + 1 ∧
    ((lockless_recycle_slot example_cache_state 7 0 1).local_slabs 0).free_list
      = (example_cache_state.local_slabs 0).free_list :=
  ⟨((c7_lockless_recycle_faithful example_cache_state 5 0 0).1 rfl).1,
   ((c7_lockless_recycle_faithful example_cache_state 5 0 0).1 rfl).2.2,
   ((c7_lockless_recycle_faithful example_cache_state 7 0 1).2 (by decide)).1,
   ((c7_lockless_recycle_faithful example_cache_state 7 0 1).2 (by decide)).2.2.2.2.1⟩
